import Mathlib

/-!
Shallow embedding of the cruzbit peer manager (src/peer_manager.go).

Go maps from address strings to peer handles are modelled as association
lists without duplicate keys (the add operations only insert absent keys);
peer handles are opaque numeric identifiers.  External effects of the code
(DNS resolution via net.LookupIP, the network handshake peer.Connect, the
websocket upgrade, durable peer storage) are passed in as explicit
environment parameters, so every function here is a pure translation of
the corresponding Go function body.
-/

namespace Cruzbit

/-- Opaque peer connection handle (Go *Peer); only its identity matters here. -/
abbrev Peer := Nat

/-- The two connection sets of PeerManager: outPeers and inPeers, each a Go
map[string]*Peer, modelled as association lists without duplicate keys. -/
structure PMState where
  outPeers : List (String × Peer)
  inPeers : List (String × Peer)
deriving DecidableEq, Repr

/-- Both maps start empty (make(map[string]*Peer) in NewPeerManager). -/
def initState : PMState := ⟨[], []⟩

/-- Go map lookup: v, ok := m[addr]. -/
def mapGet (m : List (String × Peer)) (addr : String) : Option Peer :=
  match m with
  | [] => none
  | (k, v) :: rest => if k = addr then some v else mapGet rest addr

/-- Go map removal: delete(m, addr). -/
def mapDelete (m : List (String × Peer)) (addr : String) : List (String × Peer) :=
  match m with
  | [] => []
  | (k, v) :: rest => if k = addr then mapDelete rest addr else (k, v) :: mapDelete rest addr

/-- Modelled from the spec: the constants MAX_OUTBOUND_PEER_CONNECTIONS and
MAX_INBOUND_PEER_CONNECTIONS are referenced by src/peer_manager.go but defined
in a repository file not present under src/.  The spec (data model) names them
as two distinct per-set maxima; the repository sets 8 outbound and 128 inbound.
All theorems below are parameterized over the maxima; these definitions fix
the repository values where a concrete instantiation is needed. -/
def MAX_OUTBOUND_PEER_CONNECTIONS : Nat := 8

/-- Modelled from the spec: see MAX_OUTBOUND_PEER_CONNECTIONS. -/
def MAX_INBOUND_PEER_CONNECTIONS : Nat := 128

/-- addToOutboundSet: reject when the map is at the maximum or the address is
already a key, otherwise insert the entry; returns the admission result
together with the updated state (the Go method mutates p.outPeers under
p.outPeersLock). -/
def addToOutboundSet (maxOut : Nat) (st : PMState) (addr : String) (peer : Peer) :
    Bool × PMState :=
  if st.outPeers.length = maxOut then
    (false, st)
  else if (mapGet st.outPeers addr).isSome then
    (false, st)
  else
    (true, { st with outPeers := (addr, peer) :: st.outPeers })

/-- addToInboundSet: same admission logic against MAX_INBOUND_PEER_CONNECTIONS
on p.inPeers. -/
def addToInboundSet (maxIn : Nat) (st : PMState) (addr : String) (peer : Peer) :
    Bool × PMState :=
  if st.inPeers.length = maxIn then
    (false, st)
  else if (mapGet st.inPeers addr).isSome then
    (false, st)
  else
    (true, { st with inPeers := (addr, peer) :: st.inPeers })

/-- existsInOutboundSet: key membership test on p.outPeers under a read lock. -/
def existsInOutboundSet (st : PMState) (addr : String) : Bool :=
  (mapGet st.outPeers addr).isSome

/-- removeFromOutboundSet: delete(p.outPeers, addr). -/
def removeFromOutboundSet (st : PMState) (addr : String) : PMState :=
  { st with outPeers := mapDelete st.outPeers addr }

/-- removeFromInboundSet: delete(p.inPeers, addr). -/
def removeFromInboundSet (st : PMState) (addr : String) : PMState :=
  { st with inPeers := mapDelete st.inPeers addr }

/-- One mutating operation on the two connection sets. -/
inductive PMOp where
  | addOut (addr : String) (peer : Peer)
  | addIn (addr : String) (peer : Peer)
  | removeOut (addr : String)
  | removeIn (addr : String)
deriving DecidableEq, Repr

/-- Apply one operation to the state (the Boolean admission result is
discarded; only the state evolution matters for set invariants). -/
def applyOp (maxOut maxIn : Nat) (st : PMState) : PMOp → PMState
  | .addOut addr peer => (addToOutboundSet maxOut st addr peer).2
  | .addIn addr peer => (addToInboundSet maxIn st addr peer).2
  | .removeOut addr => removeFromOutboundSet st addr
  | .removeIn addr => removeFromInboundSet st addr

/-- Run a sequence of operations from a starting state. -/
def runOps (maxOut maxIn : Nat) (st : PMState) : List PMOp → PMState
  | [] => st
  | op :: rest => runOps maxOut maxIn (applyOp maxOut maxIn st op) rest

/-- An IP address as a byte sequence, as in Go net.IP: 4 bytes for IPv4,
16 bytes for IPv6.  The resolver environment below always produces 4-byte
values for IPv4 literals, so the Go To4 normalization inside IPNet.Contains
is the identity in this embedding. -/
structure IP where
  bytes : List Nat
deriving DecidableEq, Repr

/-- Go net.IP.String restricted to the shapes that occur here: a 4-byte
address renders as dotted decimal, a nil address as the literal Go uses;
the full RFC 5952 IPv6 rendering is abbreviated since no claim exercises
it (theorems about String contents carry a 4-byte hypothesis). -/
def ipString (ip : IP) : String :=
  match ip.bytes with
  | [a, b, c, d] =>
      toString a ++ "." ++ toString b ++ "." ++ toString c ++ "." ++ toString d
  | [] => "<nil>"
  | _ => "?"

/-- A CIDR block, as produced by net.ParseCIDR: network bytes plus the
number of leading mask bits. -/
structure IPNet where
  netBytes : List Nat
  maskBits : Nat
deriving DecidableEq, Repr

/-- Big-endian byte-sequence value. -/
def bytesToNat (l : List Nat) : Nat :=
  l.foldl (fun acc b => acc * 256 + b) 0

/-- Go net.IPNet.Contains: address lengths must agree (a 4-byte address can
never fall in a 16-byte block and vice versa), then the leading maskBits
bits must agree. -/
def ipInBlock (ip : IP) (b : IPNet) : Bool :=
  ip.bytes.length == b.netBytes.length &&
    bytesToNat ip.bytes / 2 ^ (8 * ip.bytes.length - b.maskBits) ==
      bytesToNat b.netBytes / 2 ^ (8 * b.netBytes.length - b.maskBits)

/-- The fixed reserved-range list built in NewPeerManager: IPv4 loopback,
the three RFC1918 private blocks, IPv6 loopback, IPv6 link-local and IPv6
unique-local. -/
def privateIPBlocks : List IPNet :=
  [⟨[127, 0, 0, 0], 8⟩,
   ⟨[10, 0, 0, 0], 8⟩,
   ⟨[172, 16, 0, 0], 12⟩,
   ⟨[192, 168, 0, 0], 16⟩,
   ⟨[0, 0, 0, 0, 0, 0, 0, 0, 0, 0, 0, 0, 0, 0, 0, 1], 128⟩,
   ⟨[254, 128, 0, 0, 0, 0, 0, 0, 0, 0, 0, 0, 0, 0, 0, 0], 10⟩,
   ⟨[252, 0, 0, 0, 0, 0, 0, 0, 0, 0, 0, 0, 0, 0, 0, 0], 7⟩]

/-- Index of the last occurrence of a character (Go helper last in
net.SplitHostPort; -1 becomes none). -/
def lastIdx (l : List Char) (c : Char) : Option Nat :=
  match (l.reverse).findIdx? (fun x => x == c) with
  | none => none
  | some j => some (l.length - 1 - j)

/-- Index of the first occurrence of a character (Go byteIndex). -/
def firstIdx (l : List Char) (c : Char) : Option Nat :=
  l.findIdx? (fun x => x == c)

/-- Go net.SplitHostPort.  All failure modes (missing port, too many
colons, missing or unexpected brackets) collapse to none, since
parsePeerAddress treats every split failure uniformly as malformed. -/
def splitHostPort (hostPort : String) : Option (String × String) :=
  let l := hostPort.data
  match lastIdx l ':' with
  | none => none
  | some i =>
    if l.head? == some '[' then
      match firstIdx l ']' with
      | none => none
      | some e =>
        if e + 1 == l.length then none
        else if e + 1 == i then
          if (firstIdx (l.drop 1) '[').isSome then none
          else if (firstIdx (l.drop (e + 1)) ']').isSome then none
          else some (⟨(l.drop 1).take (e - 1)⟩, ⟨l.drop (i + 1)⟩)
        else none
    else
      let host := l.take i
      if (firstIdx host ':').isSome then none
      else if (firstIdx l '[').isSome then none
      else if (firstIdx l ']').isSome then none
      else some (⟨host⟩, ⟨l.drop (i + 1)⟩)

/-- Go strconv.ParseUint(port, 10, 16): the string must be nonempty, all
base-10 digits (no sign, no underscores outside base 0), and its value at
most 65535; leading zeros are allowed. -/
def parseUint16 (s : String) : Option Nat :=
  let l := s.data
  if l.isEmpty then none
  else if l.all (fun c => c.isDigit) then
    let n := l.foldl (fun acc c => acc * 10 + (c.toNat - 48)) 0
    if n ≤ 65535 then some n else none
  else none

/-- The classified failures of parsePeerAddress, one constructor per
fmt.Errorf site in the Go function. -/
inductive ParseErr where
  | malformed (addr : String)
  | invalidPort (addr : String)
  | resolveFailure (host msg : String)
  | noIP (addr : String)
  | selfAddress (addr : String)
  | localIP (ip : String)
deriving DecidableEq, Repr

/-- The DNS environment: net.LookupIP as an explicit function from host
names to a resolution result. -/
abbrev Resolver := String → Except String (List IP)

/-- parsePeerAddress: split host and port, validate the port as a 16-bit
unsigned integer, resolve the host, reject the empty resolution, reject
our own external address (p.myIP together with p.port), reject the first
resolved IP when it falls in a reserved block, and otherwise return the
first resolved IP rendered as a string together with the original port
substring. -/
def parsePeerAddress (resolver : Resolver) (myIP : String) (myPort : Nat)
    (addr : String) : Except ParseErr (String × String) :=
  match splitHostPort addr with
  | none => .error (.malformed addr)
  | some (host, port) =>
    match parseUint16 port with
    | none => .error (.invalidPort addr)
    | some portInt =>
      match resolver host with
      | .error e => .error (.resolveFailure host e)
      | .ok ips =>
        match ips with
        | [] => .error (.noIP addr)
        | ip0 :: _ =>
          if myIP = ipString ip0 ∧ myPort = portInt then
            .error (.selfAddress addr)
          else if privateIPBlocks.any (fun block => ipInBlock ip0 block) then
            .error (.localIP (ipString ip0))
          else
            .ok (ipString ip0, port)

/-- Resolution environment for the concrete examples: IP literals resolve
to themselves (as net.LookupIP does for literals) and one public host name
resolves to a public address; everything else fails to resolve. -/
def exampleResolver : Resolver := fun host =>
  if host = "127.0.0.1" then .ok [⟨[127, 0, 0, 1]⟩]
  else if host = "10.1.2.3" then .ok [⟨[10, 1, 2, 3]⟩]
  else if host = "203.0.113.5" then .ok [⟨[203, 0, 113, 5]⟩]
  else if host = "example.com" then .ok [⟨[203, 0, 113, 9]⟩]
  else .error ("lookup failure")

/-- Result of one connect(addr) call: the returned error (none on success),
the connection-set state afterwards, and whether peer.Connect was actually
invoked on the network. -/
structure ConnectOutcome where
  result : Option String
  st : PMState
  attempted : Bool
deriving DecidableEq, Repr

/-- connect(addr): construct a fresh peer handle, admit it into the
outbound set (aborting with an error when admission fails, before any
network activity), then perform peer.Connect — whose success or failure
is the environment argument connectErr — removing the just-added entry
again when the handshake fails.  The OnClose registration and peer.Run
hand-off perform no set mutation at this point and are not represented. -/
def connect (maxOut : Nat) (connectErr : Option String) (st : PMState)
    (addr : String) (peer : Peer) : ConnectOutcome :=
  let r := addToOutboundSet maxOut st addr peer
  if r.1 then
    match connectErr with
    | some e => ⟨some e, removeFromOutboundSet r.2 addr, true⟩
    | none => ⟨none, r.2, true⟩
  else
    ⟨some ("Too many peer connections"), r.2, false⟩

/-- Environment of the outbound connector: the handshake result for each
address and the fresh handle NewPeer yields for each attempt. -/
structure OutboundEnv where
  connectErr : String → Option String
  peerFor : String → Peer

/-- Result of one connectToPeers() call: the returned error, the state
afterwards, whether peerStore.Get was invoked, and the addresses for which
a network connection was attempted. -/
structure ConnectToPeersOutcome where
  result : Option String
  st : PMState
  fetched : Bool
  attempts : List String
deriving DecidableEq, Repr

/-- The sequential loop over the addresses fetched from storage: each is
handed to connect; connection errors are logged and do not stop the loop. -/
def connectLoop (maxOut : Nat) (env : OutboundEnv) (st : PMState) :
    List String → PMState × List String
  | [] => (st, [])
  | addr :: rest =>
    let o := connect maxOut (env.connectErr addr) st addr (env.peerFor addr)
    let r := connectLoop maxOut env o.st rest
    (r.1, (if o.attempted then [addr] else []) ++ r.2)

/-- connectToPeers(): with an explicit peer configured, reconnect to it only
when no outbound connection exists; otherwise compute
want = MAX_OUTBOUND_PEER_CONNECTIONS - outboundPeerCount() as a signed
quantity, return nil immediately when want is not positive, and only then
fetch up to want addresses from storage (storeGet) and try each one. -/
def connectToPeers (maxOut : Nat) (explicitPeer : String)
    (storeGet : Nat → Except String (List String)) (env : OutboundEnv)
    (st : PMState) : ConnectToPeersOutcome :=
  if explicitPeer.length ≠ 0 then
    if st.outPeers.length ≠ 0 then ⟨none, st, false, []⟩
    else
      let o := connect maxOut (env.connectErr explicitPeer) st explicitPeer
        (env.peerFor explicitPeer)
      ⟨o.result, o.st, false, if o.attempted then [explicitPeer] else []⟩
  else
    let want : Int := (maxOut : Int) - (st.outPeers.length : Int)
    if want ≤ 0 then ⟨none, st, false, []⟩
    else
      match storeGet want.toNat with
      | .error e => ⟨some e, st, true, []⟩
      | .ok addrs =>
        let r := connectLoop maxOut env st addrs
        ⟨none, r.1, true, r.2⟩

/-- Go http.StatusLoopDetected. -/
def StatusLoopDetected : Nat := 508

/-- Go http.StatusTooManyRequests. -/
def StatusTooManyRequests : Nat := 429

/-- Environment of one inbound upgrade request: whether the websocket
upgrade succeeds and the fresh handle NewPeer yields. -/
structure InboundEnv where
  upgradeOk : Bool
  newPeer : Peer

/-- Result of one inbound request through peerHandler: the explicitly
written HTTP status (none when the handler proceeded past the header
checks), the state afterwards, the addresses persisted via
peerStore.Store, whether a peer handle was constructed, and whether it was
admitted into the inbound set. -/
structure HandlerOutcome where
  status : Option Nat
  st : PMState
  stored : List String
  peerCreated : Bool
  admitted : Bool
deriving DecidableEq, Repr

/-- The peerHandler closure in acceptConnections, for one request carrying
the Cruzbit-Peer-Nonce header (theirNonce), the Cruzbit-Peer-Address
header (theirAddress, empty when absent) and the remote socket address:
reject with loop-detected on our own nonce; validate a declared address,
treating an invalid one as absent, rejecting with too-many-requests when
the resolved address already has an outbound connection, and persisting it
otherwise; then upgrade, construct the peer and admit it into the inbound
set keyed by the raw remote address, shutting the peer down when admission
fails. -/
def peerHandler (resolver : Resolver) (myIP : String) (myPort maxIn : Nat)
    (peerNonce : String) (env : InboundEnv) (st : PMState)
    (theirNonce theirAddress remoteAddr : String) : HandlerOutcome :=
  if theirNonce = peerNonce then
    ⟨some StatusLoopDetected, st, [], false, false⟩
  else
    let step2 : Option (List String) :=
      if theirAddress.length ≠ 0 then
        match parsePeerAddress resolver myIP myPort theirAddress with
        | .error _ => some []
        | .ok (host, port) =>
          let resolved := host ++ ":" ++ port
          if existsInOutboundSet st resolved then none
          else some [resolved]
      else some []
    match step2 with
    | none => ⟨some StatusTooManyRequests, st, [], false, false⟩
    | some stored =>
      if env.upgradeOk then
        let r := addToInboundSet maxIn st remoteAddr env.newPeer
        ⟨none, r.2, stored, true, r.1⟩
      else
        ⟨none, st, stored, false, false⟩

/-- A concrete state holding eight outbound connections, at the repository
outbound maximum. -/
def fullOutState : PMState :=
  ⟨[(("p1:1"), 1), (("p2:2"), 2), (("p3:3"), 3), (("p4:4"), 4),
    (("p5:5"), 5), (("p6:6"), 6), (("p7:7"), 7), (("p8:8"), 8)], []⟩

/-- A concrete state holding one outbound connection to a resolved public
address. -/
def outConnState : PMState := ⟨[(("203.0.113.5:8333"), 4)], []⟩

/-- A concrete outbound environment: every handshake succeeds and every
fresh handle is 0. -/
def envEx : OutboundEnv := ⟨fun _ => none, fun _ => 0⟩

/-- A concrete storage environment offering one address. -/
def storeGetEx : Nat → Except String (List String) := fun _ => .ok [("1.2.3.4:8333")]

/-! ## Helper lemmas about the connection-set operations -/

theorem mapDelete_length_le (m : List (String × Peer)) (a : String) :
    (mapDelete m a).length ≤ m.length := by
  induction m with
  | nil => simp [mapDelete]
  | cons kv rest ih =>
    obtain ⟨k, v⟩ := kv
    simp only [mapDelete]
    split
    · exact Nat.le_succ_of_le ih
    · simpa using ih

theorem mapGet_none_mapDelete (m : List (String × Peer)) (a : String)
    (h : mapGet m a = none) : mapDelete m a = m := by
  induction m with
  | nil => rfl
  | cons kv rest ih =>
    obtain ⟨k, v⟩ := kv
    simp only [mapGet] at h
    simp only [mapDelete]
    by_cases hk : k = a
    · simp [hk] at h
    · simp only [if_neg hk] at h ⊢
      rw [ih h]

theorem addToOutboundSet_inPeers (maxOut : Nat) (st : PMState) (addr : String)
    (peer : Peer) : ((addToOutboundSet maxOut st addr peer).2).inPeers = st.inPeers := by
  unfold addToOutboundSet
  split
  · rfl
  · split <;> rfl

theorem addToInboundSet_outPeers (maxIn : Nat) (st : PMState) (addr : String)
    (peer : Peer) : ((addToInboundSet maxIn st addr peer).2).outPeers = st.outPeers := by
  unfold addToInboundSet
  split
  · rfl
  · split <;> rfl

theorem applyOp_bounds (maxOut maxIn : Nat) (st : PMState) (op : PMOp)
    (ho : st.outPeers.length ≤ maxOut) (hi : st.inPeers.length ≤ maxIn) :
    (applyOp maxOut maxIn st op).outPeers.length ≤ maxOut ∧
      (applyOp maxOut maxIn st op).inPeers.length ≤ maxIn := by
  cases op with
  | addOut addr peer =>
    refine ⟨?_, by rw [applyOp, addToOutboundSet_inPeers]; exact hi⟩
    simp only [applyOp, addToOutboundSet]
    split
    · exact ho
    · split
      · exact ho
      · rename_i hne _
        simp only [List.length_cons]
        omega
  | addIn addr peer =>
    refine ⟨by rw [applyOp, addToInboundSet_outPeers]; exact ho, ?_⟩
    simp only [applyOp, addToInboundSet]
    split
    · exact hi
    · split
      · exact hi
      · rename_i hne _
        simp only [List.length_cons]
        omega
  | removeOut addr =>
    exact ⟨Nat.le_trans (mapDelete_length_le _ _) ho, hi⟩
  | removeIn addr =>
    exact ⟨ho, Nat.le_trans (mapDelete_length_le _ _) hi⟩

theorem runOps_bounds (maxOut maxIn : Nat) (ops : List PMOp) (st : PMState)
    (ho : st.outPeers.length ≤ maxOut) (hi : st.inPeers.length ≤ maxIn) :
    (runOps maxOut maxIn st ops).outPeers.length ≤ maxOut ∧
      (runOps maxOut maxIn st ops).inPeers.length ≤ maxIn := by
  induction ops generalizing st with
  | nil => exact ⟨ho, hi⟩
  | cons op rest ih =>
    have h := applyOp_bounds maxOut maxIn st op ho hi
    exact ih (applyOp maxOut maxIn st op) h.1 h.2

/-! ## Claim theorems -/

/-- C1 (amended): for every sequence of additions and removals on the two
connection sets starting from the empty state, the outbound set stays within
the outbound maximum and the inbound set stays within the inbound maximum
after every operation, for any values of the two maxima. -/
theorem connection_set_bounds (maxOut maxIn : Nat) (ops : List PMOp) :
    (runOps maxOut maxIn initState ops).outPeers.length ≤ maxOut ∧
      (runOps maxOut maxIn initState ops).inPeers.length ≤ maxIn :=
  runOps_bounds maxOut maxIn ops initState (Nat.zero_le _) (Nat.zero_le _)

/-- C1 counterexample: at the repository maxima (8 outbound, 128 inbound),
a sequence of nine inbound admissions drives the inbound set to cardinality
nine, which exceeds MAX_OUTBOUND_PEER_CONNECTIONS — the inbound set is
bounded by MAX_INBOUND_PEER_CONNECTIONS, not by the outbound maximum as the
claim states. -/
theorem connection_set_bounds_counterexample :
    ¬ ((runOps MAX_OUTBOUND_PEER_CONNECTIONS MAX_INBOUND_PEER_CONNECTIONS initState
          [PMOp.addIn ("a1") 1, PMOp.addIn ("a2") 2, PMOp.addIn ("a3") 3,
           PMOp.addIn ("a4") 4, PMOp.addIn ("a5") 5, PMOp.addIn ("a6") 6,
           PMOp.addIn ("a7") 7, PMOp.addIn ("a8") 8,
           PMOp.addIn ("a9") 9]).inPeers.length ≤ MAX_OUTBOUND_PEER_CONNECTIONS) := by
  decide

/-- C2: the two admission helpers reject, leaving the map unchanged, exactly
when the map is at its maximum cardinality or the address is already a key;
otherwise they insert the entry and accept; and a second admission of the
same address fails with the cardinality unchanged. -/
theorem tryAdd_contract (mx : Nat) (st : PMState) (addr : String) (pr pr2 : Peer) :
    ((st.outPeers.length = mx ∨ (mapGet st.outPeers addr).isSome) →
        addToOutboundSet mx st addr pr = (false, st)) ∧
    (st.outPeers.length ≠ mx → mapGet st.outPeers addr = none →
        addToOutboundSet mx st addr pr =
          (true, { st with outPeers := (addr, pr) :: st.outPeers })) ∧
    ((st.inPeers.length = mx ∨ (mapGet st.inPeers addr).isSome) →
        addToInboundSet mx st addr pr = (false, st)) ∧
    (st.inPeers.length ≠ mx → mapGet st.inPeers addr = none →
        addToInboundSet mx st addr pr =
          (true, { st with inPeers := (addr, pr) :: st.inPeers })) ∧
    ((addToOutboundSet mx st addr pr).1 = true →
        (addToOutboundSet mx (addToOutboundSet mx st addr pr).2 addr pr2).1 = false ∧
        ((addToOutboundSet mx (addToOutboundSet mx st addr pr).2 addr pr2).2).outPeers.length =
          ((addToOutboundSet mx st addr pr).2).outPeers.length) := by
  refine ⟨?_, ?_, ?_, ?_, ?_⟩
  · intro h
    by_cases h1 : st.outPeers.length = mx
    · simp [addToOutboundSet, h1]
    · rcases h with h | h
      · exact absurd h h1
      · simp [addToOutboundSet, h1, h]
  · intro h1 h2
    simp [addToOutboundSet, h1, h2]
  · intro h
    by_cases h1 : st.inPeers.length = mx
    · simp [addToInboundSet, h1]
    · rcases h with h | h
      · exact absurd h h1
      · simp [addToInboundSet, h1, h]
  · intro h1 h2
    simp [addToInboundSet, h1, h2]
  · intro h
    by_cases h1 : st.outPeers.length = mx
    · simp [addToOutboundSet, h1] at h
    · by_cases h2 : (mapGet st.outPeers addr).isSome
      · simp [addToOutboundSet, h1, h2] at h
      · have hres : addToOutboundSet mx st addr pr =
            (true, { st with outPeers := (addr, pr) :: st.outPeers }) := by
          simp [addToOutboundSet, h1, h2]
        have hsecond :
            addToOutboundSet mx { st with outPeers := (addr, pr) :: st.outPeers } addr pr2 =
              (false, { st with outPeers := (addr, pr) :: st.outPeers }) := by
          by_cases h3 : ((addr, pr) :: st.outPeers).length = mx
          · simp [addToOutboundSet, h3]
          · simp [addToOutboundSet, h3, mapGet]
        rw [hres, hsecond]
        exact ⟨rfl, rfl⟩

/-- C2 witness: at maximum 8 and the empty state, admission of a fresh
address succeeds and inserts it; a concrete full path through the contract. -/
theorem tryAdd_contract_witness :
    addToOutboundSet 8 initState ("1.2.3.4:8333") 7 =
      (true, { initState with outPeers := [(("1.2.3.4:8333"), 7)] }) :=
  (tryAdd_contract 8 initState ("1.2.3.4:8333") 7 0).2.1 (by decide) rfl

/-- C9: adding to or removing from the outbound set leaves the inbound set
unchanged, and adding to or removing from the inbound set leaves the
outbound set unchanged (existsInOutboundSet is a pure query that returns no
state at all in this embedding). -/
theorem set_operations_frame (mx : Nat) (st : PMState) (addr : String) (pr : Peer) :
    ((addToOutboundSet mx st addr pr).2).inPeers = st.inPeers ∧
    ((removeFromOutboundSet st addr)).inPeers = st.inPeers ∧
    ((addToInboundSet mx st addr pr).2).outPeers = st.outPeers ∧
    ((removeFromInboundSet st addr)).outPeers = st.outPeers :=
  ⟨addToOutboundSet_inPeers mx st addr pr, rfl,
   addToInboundSet_outPeers mx st addr pr, rfl⟩

theorem addToOutboundSet_true_spec (maxOut : Nat) (st : PMState) (addr : String)
    (pr : Peer) (h : (addToOutboundSet maxOut st addr pr).1 = true) :
    st.outPeers.length ≠ maxOut ∧ mapGet st.outPeers addr = none ∧
      addToOutboundSet maxOut st addr pr =
        (true, { st with outPeers := (addr, pr) :: st.outPeers }) := by
  by_cases h1 : st.outPeers.length = maxOut
  · simp [addToOutboundSet, h1] at h
  · by_cases h2 : (mapGet st.outPeers addr).isSome
    · simp [addToOutboundSet, h1, h2] at h
    · have h2n : mapGet st.outPeers addr = none := by
        cases hmg : mapGet st.outPeers addr with
        | none => rfl
        | some v => rw [hmg] at h2; simp at h2
      exact ⟨h1, h2n, by simp [addToOutboundSet, h1, h2]⟩

theorem addToOutboundSet_false_spec (maxOut : Nat) (st : PMState) (addr : String)
    (pr : Peer) (h : (addToOutboundSet maxOut st addr pr).1 = false) :
    addToOutboundSet maxOut st addr pr = (false, st) := by
  by_cases h1 : st.outPeers.length = maxOut
  · simp [addToOutboundSet, h1]
  · by_cases h2 : (mapGet st.outPeers addr).isSome
    · simp [addToOutboundSet, h1, h2]
    · simp [addToOutboundSet, h1, h2] at h

/-- C5: within one connect(addr) call, a successful admission followed by a
failing handshake removes the just-added entry again, so the call returns
the handshake error with the outbound set exactly as it was; and a failed
admission returns an error without any network attempt and without any set
mutation. -/
theorem connect_error_handling (maxOut : Nat) (ce : Option String) (st : PMState)
    (addr : String) (pr : Peer) :
    ((addToOutboundSet maxOut st addr pr).1 = true → ∀ e, ce = some e →
        connect maxOut ce st addr pr = ⟨some e, st, true⟩) ∧
    ((addToOutboundSet maxOut st addr pr).1 = false →
        connect maxOut ce st addr pr =
          ⟨some ("Too many peer connections"), st, false⟩) := by
  constructor
  · intro h e he
    obtain ⟨h1, h2, hres⟩ := addToOutboundSet_true_spec maxOut st addr pr h
    have hdel : removeFromOutboundSet
        { st with outPeers := (addr, pr) :: st.outPeers } addr = st := by
      unfold removeFromOutboundSet
      have : mapDelete ((addr, pr) :: st.outPeers) addr = st.outPeers := by
        simp only [mapDelete, if_pos rfl]
        exact mapGet_none_mapDelete st.outPeers addr h2
      rw [this]
    simp only [connect, hres, he]
    simp [hdel]
  · intro h
    have hres := addToOutboundSet_false_spec maxOut st addr pr h
    simp only [connect, hres]
    simp

/-- C5 witness: with capacity one, admitting a fresh address succeeds, the
failing handshake leaves the set as before; with capacity zero, admission
fails and nothing is attempted. -/
theorem connect_error_handling_witness :
    connect 1 (some ("boom")) initState ("1.2.3.4:8333") 7 =
        ⟨some ("boom"), initState, true⟩ ∧
    connect 0 none initState ("1.2.3.4:8333") 7 =
        ⟨some ("Too many peer connections"), initState, false⟩ :=
  ⟨(connect_error_handling 1 (some ("boom")) initState ("1.2.3.4:8333") 7).1
      (by decide) ("boom") rfl,
   (connect_error_handling 0 none initState ("1.2.3.4:8333") 7).2 (by decide)⟩

/-- C8: with no explicit peer configured and the outbound set already at the
outbound maximum, connectToPeers is a no-op: it returns nil, never consults
durable storage, changes neither set and attempts no connection; and because
the state is unchanged, a repeated invocation does exactly the same. -/
theorem connectToPeers_full_noop (maxOut : Nat) (explicitPeer : String)
    (storeGet : Nat → Except String (List String)) (env : OutboundEnv)
    (st : PMState) (hp : explicitPeer.length = 0)
    (hc : st.outPeers.length = maxOut) :
    connectToPeers maxOut explicitPeer storeGet env st = ⟨none, st, false, []⟩ ∧
    connectToPeers maxOut explicitPeer storeGet env
        (connectToPeers maxOut explicitPeer storeGet env st).st =
      ⟨none, st, false, []⟩ := by
  have h1 : connectToPeers maxOut explicitPeer storeGet env st =
      ⟨none, st, false, []⟩ := by
    unfold connectToPeers
    rw [if_neg (by simp [hp])]
    have hw : ((maxOut : Int) - (st.outPeers.length : Int)) ≤ 0 := by
      rw [hc]; omega
    simp only [hw, if_pos]
  refine ⟨h1, ?_⟩
  rw [h1]
  exact h1

/-- C8 witness: at the repository outbound maximum with eight live outbound
connections, the call is a no-op even though storage has an address to
offer. -/
theorem connectToPeers_full_noop_witness :
    connectToPeers MAX_OUTBOUND_PEER_CONNECTIONS ("") storeGetEx envEx fullOutState =
      ⟨none, fullOutState, false, []⟩ :=
  (connectToPeers_full_noop MAX_OUTBOUND_PEER_CONNECTIONS ("") storeGetEx envEx
    fullOutState rfl rfl).1

/-- C6: an inbound upgrade request whose declared nonce equals our own nonce
is rejected with the loop-detected status, whatever the declared address,
the remote address or the rest of the environment; no peer handle is
created, nothing is persisted, and neither connection set changes. -/
theorem inbound_nonce_loop_reject (resolver : Resolver) (myIP : String)
    (myPort maxIn : Nat) (peerNonce : String) (env : InboundEnv) (st : PMState)
    (theirNonce theirAddress remoteAddr : String) (h : theirNonce = peerNonce) :
    peerHandler resolver myIP myPort maxIn peerNonce env st
        theirNonce theirAddress remoteAddr =
      ⟨some StatusLoopDetected, st, [], false, false⟩ := by
  simp [peerHandler, h]

/-- C6 witness: a concrete request carrying our own nonce together with a
perfectly valid declared address is still rejected with status 508. -/
theorem inbound_nonce_loop_reject_witness :
    peerHandler exampleResolver ("") 8333 128 ("12345") ⟨true, 3⟩ initState
        ("12345") ("203.0.113.5:8334") ("9.9.9.9:1000") =
      ⟨some StatusLoopDetected, initState, [], false, false⟩ :=
  inbound_nonce_loop_reject exampleResolver ("") 8333 128 ("12345") ⟨true, 3⟩
    initState ("12345") ("203.0.113.5:8334") ("9.9.9.9:1000") rfl

/-- C7: for an inbound request with a foreign nonce and a nonempty declared
address: when the declared address validates to a resolved address that
already has an outbound connection, the request is rejected with the
too-many-requests status and nothing is persisted; when the resolved
address has no outbound connection, the handler proceeds — it persists the
resolved address and, when the upgrade succeeds, constructs the peer and
admits it subject to inbound capacity; and when the declared address fails
validation the request behaves exactly as if no address had been declared. -/
theorem inbound_declared_address_handling (resolver : Resolver) (myIP : String)
    (myPort maxIn : Nat) (peerNonce : String) (env : InboundEnv) (st : PMState)
    (theirNonce theirAddress remoteAddr : String)
    (hn : theirNonce ≠ peerNonce) (ha : theirAddress.length ≠ 0) :
    (∀ host port,
      parsePeerAddress resolver myIP myPort theirAddress = .ok (host, port) →
      (existsInOutboundSet st (host ++ ":" ++ port) = true →
        peerHandler resolver myIP myPort maxIn peerNonce env st
            theirNonce theirAddress remoteAddr =
          ⟨some StatusTooManyRequests, st, [], false, false⟩) ∧
      (existsInOutboundSet st (host ++ ":" ++ port) = false →
        peerHandler resolver myIP myPort maxIn peerNonce env st
            theirNonce theirAddress remoteAddr =
          (if env.upgradeOk then
            ⟨none, (addToInboundSet maxIn st remoteAddr env.newPeer).2,
              [host ++ ":" ++ port], true,
              (addToInboundSet maxIn st remoteAddr env.newPeer).1⟩
           else ⟨none, st, [host ++ ":" ++ port], false, false⟩))) ∧
    (∀ e, parsePeerAddress resolver myIP myPort theirAddress = .error e →
      peerHandler resolver myIP myPort maxIn peerNonce env st
          theirNonce theirAddress remoteAddr =
        peerHandler resolver myIP myPort maxIn peerNonce env st
          theirNonce ("") remoteAddr) := by
  constructor
  · intro host port hp
    constructor
    · intro hex
      simp [peerHandler, hn, ha, hp, hex]
    · intro hex
      by_cases hu : env.upgradeOk
      · simp [peerHandler, hn, ha, hp, hex, hu]
      · simp [peerHandler, hn, ha, hp, hex, hu]
  · intro e hp
    simp [peerHandler, hn, ha, hp]

/-- C7 witness: with an existing outbound connection to 203.0.113.5:8333, a
request declaring that address is rejected with status 429 and nothing is
persisted, while a request declaring 203.0.113.5:8334 is persisted and
admitted into the inbound set. -/
theorem inbound_declared_address_handling_witness :
    peerHandler exampleResolver ("") 9999 128 ("n") ⟨true, 5⟩ outConnState
        ("m") ("203.0.113.5:8333") ("9.9.9.9:1000") =
      ⟨some StatusTooManyRequests, outConnState, [], false, false⟩ ∧
    peerHandler exampleResolver ("") 9999 128 ("n") ⟨true, 5⟩ outConnState
        ("m") ("203.0.113.5:8334") ("9.9.9.9:1000") =
      ⟨none, { outConnState with inPeers := [(("9.9.9.9:1000"), 5)] },
        [("203.0.113.5:8334")], true, true⟩ := by
  constructor
  · exact ((inbound_declared_address_handling exampleResolver ("") 9999 128 ("n")
      ⟨true, 5⟩ outConnState ("m") ("203.0.113.5:8333") ("9.9.9.9:1000")
      (by decide) (by decide)).1 ("203.0.113.5") ("8333") rfl).1 rfl
  · have h := ((inbound_declared_address_handling exampleResolver ("") 9999 128 ("n")
      ⟨true, 5⟩ outConnState ("m") ("203.0.113.5:8334") ("9.9.9.9:1000")
      (by decide) (by decide)).1 ("203.0.113.5") ("8334") rfl).2 rfl
    rw [h]
    rfl

theorem dotted_ne_empty (a b c d : Nat) :
    toString a ++ "." ++ toString b ++ "." ++ toString c ++ "." ++ toString d ≠ "" := by
  intro h
  have hlen := congrArg String.length h
  have hdot : ("." : String).length = 1 := rfl
  have hemp : ("" : String).length = 0 := rfl
  simp only [String.length_append, hdot, hemp] at hlen
  omega

theorem ipString_ne_empty (ip : IP) : ipString ip ≠ "" := by
  rcases ip with ⟨bs⟩
  rcases bs with _ | ⟨a, bs⟩
  · decide
  rcases bs with _ | ⟨b, bs⟩
  · exact (by decide : ("?" : String) ≠ "")
  rcases bs with _ | ⟨c, bs⟩
  · exact (by decide : ("?" : String) ≠ "")
  rcases bs with _ | ⟨d, bs⟩
  · exact (by decide : ("?" : String) ≠ "")
  rcases bs with _ | ⟨e, bs⟩
  · exact dotted_ne_empty a b c d
  · exact (by decide : ("?" : String) ≠ "")

/-- C3: the address validator rejects a string that does not split into
host and port as malformed; rejects a port that is not a valid unsigned
16-bit integer as an invalid port; accepts a resolvable public host with a
valid port that is not our own address, producing the canonical pair of
the first resolved IP and the port; and on the concrete examples rejects
the loopback and private addresses, the malformed string and the oversized
port while accepting a public host. -/
theorem address_validator_classification :
    (∀ (resolver : Resolver) (myIP : String) (myPort : Nat) (addr : String),
        splitHostPort addr = none →
        parsePeerAddress resolver myIP myPort addr = .error (.malformed addr)) ∧
    (∀ (resolver : Resolver) (myIP : String) (myPort : Nat) (addr host port : String),
        splitHostPort addr = some (host, port) → parseUint16 port = none →
        parsePeerAddress resolver myIP myPort addr = .error (.invalidPort addr)) ∧
    (∀ (resolver : Resolver) (myIP : String) (myPort : Nat)
        (addr host port : String) (n : Nat) (ip : IP) (rest : List IP),
        splitHostPort addr = some (host, port) → parseUint16 port = some n →
        resolver host = .ok (ip :: rest) →
        ¬(myIP = ipString ip ∧ myPort = n) →
        privateIPBlocks.any (fun block => ipInBlock ip block) = false →
        parsePeerAddress resolver myIP myPort addr = .ok (ipString ip, port)) ∧
    parsePeerAddress exampleResolver ("") 8333 ("127.0.0.1:8080") =
      .error (.localIP ("127.0.0.1")) ∧
    parsePeerAddress exampleResolver ("") 8333 ("10.1.2.3:8080") =
      .error (.localIP ("10.1.2.3")) ∧
    parsePeerAddress exampleResolver ("") 8333 ("not-an-address") =
      .error (.malformed ("not-an-address")) ∧
    parsePeerAddress exampleResolver ("") 8333 ("example.com:999999") =
      .error (.invalidPort ("example.com:999999")) ∧
    parsePeerAddress exampleResolver ("") 8333 ("example.com:8080") =
      .ok (("203.0.113.9"), ("8080")) := by
  refine ⟨?_, ?_, ?_, ?_, ?_, ?_, ?_, ?_⟩
  · intro resolver myIP myPort addr h
    simp [parsePeerAddress, h]
  · intro resolver myIP myPort addr host port h1 h2
    simp [parsePeerAddress, h1, h2]
  · intro resolver myIP myPort addr host port n ip rest h1 h2 h3 h4 h5
    simp [parsePeerAddress, h1, h2, h3, h4, h5]
  · rfl
  · rfl
  · rfl
  · rfl
  · rfl

/-- C3 witness: the universal malformed branch applied to a concrete
colon-free string. -/
theorem address_validator_classification_witness :
    parsePeerAddress exampleResolver ("") 8333 ("no-colon-here") =
      .error (.malformed ("no-colon-here")) :=
  address_validator_classification.1 exampleResolver ("") 8333 ("no-colon-here") rfl

/-- C4: once an address reaches the self-connection guard (it splits, its
port is valid and its host resolves), the guard rejects it exactly when the
first resolved IP renders to our known external IP and the port equals our
own listen port; with an unknown external IP (the empty string) no address
is ever rejected as self; concretely, with external identity
203.0.113.5:8333 the address 203.0.113.5:8333 is rejected as ours while
203.0.113.5:8334 is accepted. -/
theorem self_connection_guard :
    (∀ (resolver : Resolver) (myIP : String) (myPort : Nat)
        (addr host port : String) (n : Nat) (ip : IP) (rest : List IP),
        splitHostPort addr = some (host, port) → parseUint16 port = some n →
        resolver host = .ok (ip :: rest) →
        (parsePeerAddress resolver myIP myPort addr = .error (.selfAddress addr) ↔
          (myIP = ipString ip ∧ myPort = n))) ∧
    (∀ (resolver : Resolver) (myPort : Nat) (addr : String),
        parsePeerAddress resolver ("") myPort addr ≠ .error (.selfAddress addr)) ∧
    parsePeerAddress exampleResolver ("203.0.113.5") 8333 ("203.0.113.5:8333") =
      .error (.selfAddress ("203.0.113.5:8333")) ∧
    parsePeerAddress exampleResolver ("203.0.113.5") 8333 ("203.0.113.5:8334") =
      .ok (("203.0.113.5"), ("8334")) := by
  refine ⟨?_, ?_, ?_, ?_⟩
  · intro resolver myIP myPort addr host port n ip rest h1 h2 h3
    simp only [parsePeerAddress, h1, h2, h3]
    by_cases hg : myIP = ipString ip ∧ myPort = n
    · simp [hg]
    · rw [if_neg hg]
      refine iff_of_false ?_ hg
      split
      · simp
      · simp
  · intro resolver myPort addr
    cases hsp : splitHostPort addr with
    | none => simp [parsePeerAddress, hsp]
    | some hp =>
      obtain ⟨host, port⟩ := hp
      cases hpu : parseUint16 port with
      | none => simp [parsePeerAddress, hsp, hpu]
      | some n =>
        cases hres : resolver host with
        | error e => simp [parsePeerAddress, hsp, hpu, hres]
        | ok ips =>
          cases ips with
          | nil => simp [parsePeerAddress, hsp, hpu, hres]
          | cons ip rest =>
            have hguard : ¬(("" : String) = ipString ip ∧ myPort = n) := by
              rintro ⟨hip, -⟩
              exact ipString_ne_empty ip hip.symm
            simp only [parsePeerAddress, hsp, hpu, hres]
            rw [if_neg hguard]
            split
            · simp
            · simp
  · rfl
  · rfl

/-- C4 witness: the guard equivalence applied to the concrete self address,
with both sides evaluating to the self rejection. -/
theorem self_connection_guard_witness :
    parsePeerAddress exampleResolver ("203.0.113.5") 8333 ("203.0.113.5:8333") =
        .error (.selfAddress ("203.0.113.5:8333")) ↔
      (("203.0.113.5" : String) = ipString ⟨[203, 0, 113, 5]⟩ ∧ 8333 = 8333) :=
  self_connection_guard.1 exampleResolver ("203.0.113.5") 8333 ("203.0.113.5:8333")
    ("203.0.113.5") ("8333") 8333 ⟨[203, 0, 113, 5]⟩ [] rfl rfl rfl

/-- C10: every accepted input yields, as port component, the very substring
produced by the host-port split, not a re-rendering of its numeric value;
hence ports 8333 and 08333, which parse to the same number, give distinct
canonical address strings (and hence distinct connection-set keys). -/
theorem canonical_port_verbatim :
    (∀ (resolver : Resolver) (myIP : String) (myPort : Nat) (addr host port : String),
        parsePeerAddress resolver myIP myPort addr = .ok (host, port) →
        ∃ host0, splitHostPort addr = some (host0, port)) ∧
    parsePeerAddress exampleResolver ("") 9999 ("203.0.113.5:8333") =
      .ok (("203.0.113.5"), ("8333")) ∧
    parsePeerAddress exampleResolver ("") 9999 ("203.0.113.5:08333") =
      .ok (("203.0.113.5"), ("08333")) ∧
    parseUint16 ("8333") = parseUint16 ("08333") ∧
    ("203.0.113.5" ++ ":" ++ "8333" : String) ≠
      ("203.0.113.5" ++ ":" ++ "08333" : String) := by
  refine ⟨?_, rfl, rfl, rfl, by decide⟩
  intro resolver myIP myPort addr host port h
  cases hsp : splitHostPort addr with
  | none => simp [parsePeerAddress, hsp] at h
  | some hp =>
    obtain ⟨host0, port0⟩ := hp
    cases hpu : parseUint16 port0 with
    | none => simp [parsePeerAddress, hsp, hpu] at h
    | some n =>
      cases hres : resolver host0 with
      | error e => simp [parsePeerAddress, hsp, hpu, hres] at h
      | ok ips =>
        cases ips with
        | nil => simp [parsePeerAddress, hsp, hpu, hres] at h
        | cons ip rest =>
          simp only [parsePeerAddress, hsp, hpu, hres] at h
          split at h
          · simp at h
          · split at h
            · simp at h
            · simp only [Except.ok.injEq, Prod.mk.injEq] at h
              exact ⟨host0, by rw [h.2]⟩


/-- C10 witness: the verbatim-port property applied to the accepted input
with the leading-zero port. -/
theorem canonical_port_verbatim_witness :
    ∃ host0, splitHostPort ("203.0.113.5:08333") = some (host0, ("08333")) :=
  canonical_port_verbatim.1 exampleResolver ("") 9999 ("203.0.113.5:08333")
    ("203.0.113.5") ("08333") rfl

end Cruzbit
